import Mathlib

/-!
Verification of the spirograph boundary-parametrization and trace-generation
engine of this repository.  The definitions below are a shallow embedding of
`src/src/components/SpirographCanvas.tsx` (the canonical variant; the
`src/unnamed/part_000` variant shares every function verified here except for
two cosmetic differences noted in doc comments) together with the shape
descriptor types from the repository's two variants of `types.ts`.

Real-valued geometry (trigonometry) is embedded over `ℝ`; the color resolver
and the wheel-zoom handler, which use only field arithmetic, comparisons and
rounding, are embedded over `ℚ` so that they stay executable.  JavaScript's
truncating remainder `%`, `Math.floor`, `Math.sign`, `Math.atan2` and
`Math.round` are modelled explicitly.  One computation (the unguarded division
by the moving radius, claim C4) is additionally modelled over a small
IEEE-style number type `JSNum` with `Infinity` and `NaN`, because its behavior
on a zero moving radius is invisible over `ℝ`.
-/

namespace Spirograph

/- ## Color resolver (getColorFromGradient, SpirographCanvas.tsx lines 15-52) -/

/-- Value of one hex digit character, as consumed by JS `parseInt(s, 16)`. -/
def hexDigitVal (c : Char) : ℕ :=
  if '0' ≤ c ∧ c ≤ '9' then c.toNat - '0'.toNat
  else if 'a' ≤ c ∧ c ≤ 'f' then c.toNat - 'a'.toNat + 10
  else if 'A' ≤ c ∧ c ≤ 'F' then c.toNat - 'A'.toNat + 10
  else 0

/-- Embedding of `parseInt(color.slice(i, i + 2), 16)` on a well-formed hex
color string such as `"#a0b1c2"`. -/
def parseHex2 (s : String) (i : ℕ) : ℕ :=
  ((s.toList.drop i).take 2).foldl (fun acc c => 16 * acc + hexDigitVal c) 0

/-- JS `Math.round`: round half toward positive infinity. -/
def jsRound (q : ℚ) : ℤ := ⌊q + 1/2⌋

/-- JS `n.toString(16)` for a natural number: lowercase hex digits. -/
def natToHexStr (n : ℕ) : String := String.mk (Nat.toDigits 16 n)

/-- JS `n.toString(16)` for an integer (negative values get a leading minus,
as in JS; the verified inputs never produce one). -/
def intToHexStr (n : ℤ) : String :=
  if n < 0 then "-" ++ natToHexStr n.natAbs else natToHexStr n.natAbs

/-- JS `s.padStart(2, '0')`. -/
def padStart2 (s : String) : String :=
  String.mk (List.replicate (2 - s.length) '0') ++ s

/-- One gradient stop `{ color, position }` from `types.ts`. -/
structure GradientStop where
  color : String
  position : ℚ

/-- The `GradientColor` record of `types.ts` (the `type: 'gradient'` tag is
implied by the variant; the `angle` field is carried but unused by the
resolver). -/
structure GradientColor where
  colors : List GradientStop
  angle : ℚ

/-- The `string | GradientColor` argument type of `getColorFromGradient`. -/
inductive ColorValue where
  | str (s : String)
  | gradient (g : GradientColor)

/-- Out-of-bounds default used to model JS array indexing in the resolver;
never reached on the gradients the theorems quantify over. -/
def defaultStop : GradientStop := ⟨"#000000", 0⟩

/-- The adjacent-pair search loop of `getColorFromGradient` (lines 26-32):
`startIndex` becomes the first `i` with
`progress >= colors[i].position && progress <= colors[i+1].position`,
and keeps its initial value `0` when no pair matches. -/
def findStartIndex (colors : List GradientStop) (progress : ℚ) : ℕ :=
  ((colors.zip colors.tail).findIdx?
      (fun pr => decide (pr.1.position ≤ progress) &&
                 decide (progress ≤ pr.2.position))).getD 0

/-- The interpolation tail of `getColorFromGradient` (lines 34-51) on an
explicit stop pair: channel-wise linear interpolation with JS rounding,
re-encoded as a `#rrggbb` string. -/
def interpolateStopPair (s1 s2 : GradientStop) (progress : ℚ) : String :=
  let t := (progress - s1.position) / (s2.position - s1.position)
  let r1 := (parseHex2 s1.color 1 : ℚ)
  let g1 := (parseHex2 s1.color 3 : ℚ)
  let b1 := (parseHex2 s1.color 5 : ℚ)
  let r2 := (parseHex2 s2.color 1 : ℚ)
  let g2 := (parseHex2 s2.color 3 : ℚ)
  let b2 := (parseHex2 s2.color 5 : ℚ)
  let r := jsRound (r1 + (r2 - r1) * t)
  let g := jsRound (g1 + (g2 - g1) * t)
  let b := jsRound (b1 + (b2 - b1) * t)
  "#" ++ padStart2 (intToHexStr r) ++ padStart2 (intToHexStr g) ++
    padStart2 (intToHexStr b)

/-- Embedding of `getColorFromGradient` (SpirographCanvas.tsx lines 15-52).
The interpolation tail is factored into `interpolateStopPair`, applied to the
pair selected by `findStartIndex`, exactly as the source applies it to
`colors[startIndex]` and `colors[startIndex + 1]`. -/
def getColorFromGradient (color : ColorValue) (progress : ℚ) : String :=
  match color with
  | .str s => s
  | .gradient g =>
    let colors := g.colors
    if colors.length = 1 then (colors.getD 0 defaultStop).color
    else
      let startIndex := findStartIndex colors progress
      interpolateStopPair (colors.getD startIndex defaultStop)
        (colors.getD (startIndex + 1) defaultStop) progress

/-- A concrete three-stop gradient (stop positions `0`, `1/2`, `1`) used to
evaluate the resolver's out-of-range fallback. -/
def c6Gradient : GradientColor :=
  ⟨[⟨"#100000", 0⟩, ⟨"#200000", 1/2⟩, ⟨"#800000", 1⟩], 0⟩

/- ## View transform: wheel zoom (handleWheel, SpirographCanvas.tsx 183-189) -/

/-- Scale update of one wheel event:
`setScale(prev => Math.max(0.1, Math.min(10, prev * scaleFactor)))` with
`scaleFactor = deltaY > 0 ? 0.9 : 1.1`. -/
def handleWheelScale (deltaY prev : ℚ) : ℚ :=
  let scaleFactor : ℚ := if 0 < deltaY then 9/10 else 11/10
  max (1/10) (min 10 (prev * scaleFactor))

/-- Fold of `handleWheelScale` over a finite sequence of wheel deltas. -/
def applyWheelEvents (deltas : List ℚ) (scale0 : ℚ) : ℚ :=
  deltas.foldl (fun s d => handleWheelScale d s) scale0

/- ## Shape descriptors (types.ts, both repository variants) -/

/-- `CircleParams` of `types.ts`. -/
structure CircleParams where
  radius : ℝ

/-- `SquareParams` of `types.ts`. -/
structure SquareParams where
  edgeLength : ℝ
  cornerRadius : ℝ

/-- `StarParams` of `types.ts`. -/
structure StarParams where
  outerRadius : ℝ
  innerRadius : ℝ
  points : ℕ

/-- `HexagonParams` of `types.ts`. -/
structure HexagonParams where
  sideLength : ℝ
  cornerRadius : ℝ

/-- `EllipseParams` of `types.ts` (`rotation` in degrees). -/
structure EllipseParams where
  majorAxis : ℝ
  minorAxis : ℝ
  rotation : ℝ

/-- `TriangleConfig` parameters from the `src/src/types.ts` variant; this tag
is not handled by any `switch` in `SpirographCanvas.tsx`, so it reaches the
`default` branches. -/
structure TriangleParams where
  sideLength : ℝ
  cornerRadius : ℝ

/-- `OvalConfig` parameters from the `src/src/types.ts` variant; like
`triangle`, an unhandled tag that reaches the `default` branches. -/
structure OvalParams where
  majorAxis : ℝ
  minorAxis : ℝ
  rotation : ℝ

/-- The tagged union `FixedShapeConfig`: the five families handled by the
canvas switches, plus the two tags (`triangle`, `oval`) declared by
`src/src/types.ts` that fall through to the `default` branches. -/
inductive FixedShapeConfig where
  | circle (params : CircleParams)
  | square (params : SquareParams)
  | star (params : StarParams)
  | hexagon (params : HexagonParams)
  | ellipse (params : EllipseParams)
  | triangle (params : TriangleParams)
  | oval (params : OvalParams)

/-- `getFixedShapeRadius` (SpirographCanvas.tsx lines 54-71): the effective
rolling radius substituted for `R` in the roulette formula; unhandled tags
take the `default: return 0` branch. -/
noncomputable def getFixedShapeRadius : FixedShapeConfig → ℝ
  | .circle p => p.radius
  | .square p => p.edgeLength * Real.sqrt 2 / 2
  | .star p => p.outerRadius
  | .hexagon p => p.sideLength
  | .ellipse p => p.majorAxis / 2
  | _ => 0

/- ## JS numeric primitives used by the geometry -/

/-- JS `Math.sign` on a real number. -/
noncomputable def jsSign (x : ℝ) : ℝ :=
  if 0 < x then 1 else if x < 0 then -1 else 0

/-- Round toward zero, the quotient rounding of the JS `%` operator. -/
noncomputable def rtz (x : ℝ) : ℤ := if 0 ≤ x then ⌊x⌋ else ⌈x⌉

/-- JS remainder `a % b` on real operands: `a - b * trunc(a / b)`. -/
noncomputable def jsRem (a b : ℝ) : ℝ := a - b * rtz (a / b)

/-- The angle normalization `((angle % (2π)) + 2π) % (2π)` computed by the
square, star and hexagon branches of `calculatePoint`. -/
noncomputable def normalizeAngle (angle : ℝ) : ℝ :=
  jsRem (jsRem angle (2 * Real.pi) + 2 * Real.pi) (2 * Real.pi)

/-- JS `Math.atan2 y x` on finite reals (signed zeros ignored). -/
noncomputable def atan2 (y x : ℝ) : ℝ :=
  if 0 < x then Real.arctan (y / x)
  else if x < 0 ∧ 0 ≤ y then Real.arctan (y / x) + Real.pi
  else if x < 0 ∧ y < 0 then Real.arctan (y / x) - Real.pi
  else if x = 0 ∧ 0 < y then Real.pi / 2
  else if x = 0 ∧ y < 0 then -(Real.pi / 2)
  else 0

/- ## Guide boundary sampling (the moving-circle-center switch of
calculatePoint, SpirographCanvas.tsx lines 361-527) -/

/-- Square branch of `calculatePoint` (lines 376-435), as a function of the
already normalized angle (the branch uses the input angle only through
`normalizedAngle`). -/
noncomputable def squareCenterAux (p : SquareParams) (normalizedAngle : ℝ) :
    ℝ × ℝ :=
  let halfEdge := p.edgeLength / 2
  let sideAngle := Real.pi / 2
  let side : ℤ := ⌊normalizedAngle / sideAngle⌋
  let sideProgress := jsRem normalizedAngle sideAngle / sideAngle
  if 0 < p.cornerRadius then
    let cornerAngle := atan2 p.cornerRadius (halfEdge - p.cornerRadius)
    if normalizedAngle < cornerAngle ∨
        normalizedAngle ≥ 2 * Real.pi - cornerAngle then
      (halfEdge - p.cornerRadius,
       -halfEdge + p.cornerRadius +
         normalizedAngle * (p.edgeLength - 2 * p.cornerRadius) / sideAngle)
    else if normalizedAngle < Real.pi / 2 + cornerAngle then
      (halfEdge - p.cornerRadius -
         (normalizedAngle - cornerAngle) *
           (p.edgeLength - 2 * p.cornerRadius) / sideAngle,
       halfEdge - p.cornerRadius)
    else if normalizedAngle < Real.pi + cornerAngle then
      (-halfEdge + p.cornerRadius,
       halfEdge - p.cornerRadius -
         (normalizedAngle - (Real.pi / 2 + cornerAngle)) *
           (p.edgeLength - 2 * p.cornerRadius) / sideAngle)
    else if normalizedAngle < 3 * Real.pi / 2 + cornerAngle then
      (-halfEdge + p.cornerRadius +
         (normalizedAngle - (Real.pi + cornerAngle)) *
           (p.edgeLength - 2 * p.cornerRadius) / sideAngle,
       -halfEdge + p.cornerRadius)
    else
      let ccx := jsSign (Real.cos normalizedAngle) * (halfEdge - p.cornerRadius)
      let ccy := jsSign (Real.sin normalizedAngle) * (halfEdge - p.cornerRadius)
      let cornerAngleOffset :=
        normalizedAngle - (⌊normalizedAngle / sideAngle⌋ : ℝ) * sideAngle
      (ccx + p.cornerRadius * Real.cos cornerAngleOffset,
       ccy + p.cornerRadius * Real.sin cornerAngleOffset)
  else
    if side = 0 then (halfEdge, -halfEdge + p.edgeLength * sideProgress)
    else if side = 1 then (halfEdge - p.edgeLength * sideProgress, halfEdge)
    else if side = 2 then (-halfEdge, halfEdge - p.edgeLength * sideProgress)
    else (-halfEdge + p.edgeLength * sideProgress, -halfEdge)

/-- Star branch of `calculatePoint` (lines 451-464), as a function of the
already normalized angle. -/
noncomputable def starCenterAux (p : StarParams) (normalizedAngle : ℝ) :
    ℝ × ℝ :=
  let pointAngle := Real.pi / (p.points : ℝ)
  let currentPoint : ℤ := ⌊normalizedAngle / pointAngle⌋
  let progress := jsRem normalizedAngle pointAngle / pointAngle
  let radius1 := if currentPoint % 2 = 0 then p.outerRadius else p.innerRadius
  let radius2 := if currentPoint % 2 = 0 then p.innerRadius else p.outerRadius
  let currentRadius := radius1 + (radius2 - radius1) * progress
  (currentRadius * Real.cos normalizedAngle,
   currentRadius * Real.sin normalizedAngle)

/-- Hexagon branch of `calculatePoint` (lines 465-523), as a function of the
already normalized angle. -/
noncomputable def hexagonCenterAux (p : HexagonParams) (normalizedAngle : ℝ) :
    ℝ × ℝ :=
  let angleStep := Real.pi / 3
  let currentVertex : ℤ := ⌊normalizedAngle / angleStep⌋
  let progress := jsRem normalizedAngle angleStep / angleStep
  let angle1 := (currentVertex : ℝ) * angleStep
  let angle2 := ((currentVertex : ℝ) + 1) * angleStep
  if 0 < p.cornerRadius then
    let p1x := p.sideLength * Real.cos angle1
    let p1y := p.sideLength * Real.sin angle1
    let p2x := p.sideLength * Real.cos angle2
    let p2y := p.sideLength * Real.sin angle2
    let cornerAngle := atan2 p.cornerRadius p.sideLength
    if progress < cornerAngle / angleStep then
      let ccx := p1x - p.cornerRadius * Real.cos (angle1 - Real.pi / 2)
      let ccy := p1y - p.cornerRadius * Real.sin (angle1 - Real.pi / 2)
      let cornerProgress := progress * angleStep / cornerAngle
      (ccx + p.cornerRadius * Real.cos (angle1 + cornerProgress * Real.pi / 2),
       ccy + p.cornerRadius * Real.sin (angle1 + cornerProgress * Real.pi / 2))
    else if progress > 1 - cornerAngle / angleStep then
      let ccx := p2x - p.cornerRadius * Real.cos (angle2 + Real.pi / 2)
      let ccy := p2y - p.cornerRadius * Real.sin (angle2 + Real.pi / 2)
      let cornerProgress :=
        (progress - 1 + cornerAngle / angleStep) * angleStep / cornerAngle
      (ccx + p.cornerRadius *
         Real.cos (angle2 - (1 - cornerProgress) * Real.pi / 2),
       ccy + p.cornerRadius *
         Real.sin (angle2 - (1 - cornerProgress) * Real.pi / 2))
    else
      let edgeProgress :=
        (progress - cornerAngle / angleStep) /
          (1 - 2 * cornerAngle / angleStep)
      (p1x + (p2x - p1x) * edgeProgress, p1y + (p2y - p1y) * edgeProgress)
  else
    let x1 := p.sideLength * Real.cos angle1
    let y1 := p.sideLength * Real.sin angle1
    let x2 := p.sideLength * Real.cos angle2
    let y2 := p.sideLength * Real.sin angle2
    (x1 + (x2 - x1) * progress, y1 + (y2 - y1) * progress)

/-- Ellipse branch of `calculatePoint` (lines 436-450): sample the
axis-aligned ellipse at the de-rotated angle, then rotate back. -/
noncomputable def ellipseCenter (p : EllipseParams) (angle : ℝ) : ℝ × ℝ :=
  let rotatedAngle := angle - p.rotation * Real.pi / 180
  let x := p.majorAxis / 2 * Real.cos rotatedAngle
  let y := p.minorAxis / 2 * Real.sin rotatedAngle
  let c := Real.cos (p.rotation * Real.pi / 180)
  let s := Real.sin (p.rotation * Real.pi / 180)
  (x * c - y * s, x * s + y * c)

/-- The moving-circle-center switch of `calculatePoint` (lines 366-527): the
guide boundary point at a travel angle.  The circle branch computes
`R * cos/sin` with `R = getFixedShapeRadius`, which for a circle is the
descriptor's radius; the `default` branch does the same with the `default`
radius `0`. -/
noncomputable def boundaryPoint (fixedShape : FixedShapeConfig) (angle : ℝ) :
    ℝ × ℝ :=
  match fixedShape with
  | .circle p => (p.radius * Real.cos angle, p.radius * Real.sin angle)
  | .square p => squareCenterAux p (normalizeAngle angle)
  | .star p => starCenterAux p (normalizeAngle angle)
  | .hexagon p => hexagonCenterAux p (normalizeAngle angle)
  | .ellipse p => ellipseCenter p angle
  | s => (getFixedShapeRadius s * Real.cos angle,
          getFixedShapeRadius s * Real.sin angle)

/-- The `SpirographParams` fields consumed by the canvas component
(`movingShape` is always a circle in `types.ts`, so only its radius is
carried; the color field lives in the separately embedded resolver). -/
structure SpirographParams where
  fixedShape : FixedShapeConfig
  movingShape : CircleParams
  penDistance : ℝ
  animationSpeed : ℝ
  lineWidth : ℝ

/-- `calculatePoint` (SpirographCanvas.tsx lines 361-535): boundary sample,
minus the moving circle's own offset `r * (cos θ, sin θ)`, plus the pen
offset at `penAngle = ((R - r) / r) * θ` with the `y` term negated for the
screen's inverted vertical axis. -/
noncomputable def calculatePoint (params : SpirographParams) (angle : ℝ) :
    ℝ × ℝ :=
  let movingRadius := params.movingShape.radius
  let R := getFixedShapeRadius params.fixedShape
  let base := boundaryPoint params.fixedShape angle
  let penAngle := (R - movingRadius) / movingRadius * angle
  (base.1 - movingRadius * Real.cos angle +
     params.penDistance * Real.cos penAngle,
   base.2 - movingRadius * Real.sin angle -
     params.penDistance * Real.sin penAngle)

/-- Moving-circle center drawn by the overlay (`drawMovingCircle`,
SpirographCanvas.tsx lines 316-356): always the circle formula
`(R - r) * (cos θ, sin θ)`, whatever the guide's shape. -/
noncomputable def drawMovingCircleCenter (params : SpirographParams)
    (currentAngle : ℝ) : ℝ × ℝ :=
  let movingRadius := params.movingShape.radius
  let R := getFixedShapeRadius params.fixedShape
  ((R - movingRadius) * Real.cos currentAngle,
   (R - movingRadius) * Real.sin currentAngle)

/-- Pen point drawn by the overlay (`drawMovingCircle`, lines 342-343). -/
noncomputable def drawMovingCirclePen (params : SpirographParams)
    (currentAngle : ℝ) : ℝ × ℝ :=
  let movingRadius := params.movingShape.radius
  let R := getFixedShapeRadius params.fixedShape
  let center := drawMovingCircleCenter params currentAngle
  (center.1 + params.penDistance *
     Real.cos ((R - movingRadius) / movingRadius * currentAngle),
   center.2 - params.penDistance *
     Real.sin ((R - movingRadius) / movingRadius * currentAngle))

/- ## Animation loop state -/

/-- The angle increment one call of `animate` adds to `angleRef`
(SpirographCanvas.tsx lines 580-583):
`nextAngle = currentAngle + animationSpeed * (timestamp * 0.0005) * 0.1`,
where `timestamp` is the absolute `requestAnimationFrame` timestamp since
page load, not a per-frame elapsed time. -/
noncomputable def animateAngleIncrement (animationSpeed timestamp : ℝ) : ℝ :=
  let t := timestamp * 0.0005
  animationSpeed * t * 0.1

/-- The mutable trace state owned by the canvas: `angleRef` and
`lastPointRef`. -/
structure TraceState where
  cumulativeAngle : ℝ
  lastPoint : Option (ℝ × ℝ)

/-- State effect of `clearCanvas` (SpirographCanvas.tsx lines 85-115) on the
trace state: `lastPointRef.current = null`, and no assignment to `angleRef`
(the surface wipe and overlay redraw act on the render surface only). -/
def clearCanvas (s : TraceState) : TraceState := { s with lastPoint := none }

/- ## IEEE-style number model for the unguarded division of calculatePoint -/

/-- A JS number: a finite real, an infinity, or `NaN` (signed zeros and
overflow are not modelled; they play no role in the verified computation). -/
inductive JSNum where
  | finite (x : ℝ)
  | posInf
  | negInf
  | nan

/-- JS addition on `JSNum`. -/
noncomputable def JSNum.add : JSNum → JSNum → JSNum
  | .finite a, .finite b => .finite (a + b)
  | .finite _, .posInf => .posInf
  | .posInf, .finite _ => .posInf
  | .finite _, .negInf => .negInf
  | .negInf, .finite _ => .negInf
  | .posInf, .posInf => .posInf
  | .negInf, .negInf => .negInf
  | _, _ => .nan

/-- JS subtraction on `JSNum`. -/
noncomputable def JSNum.sub : JSNum → JSNum → JSNum
  | .finite a, .finite b => .finite (a - b)
  | .finite _, .posInf => .negInf
  | .posInf, .finite _ => .posInf
  | .finite _, .negInf => .posInf
  | .negInf, .finite _ => .negInf
  | .posInf, .negInf => .posInf
  | .negInf, .posInf => .negInf
  | _, _ => .nan

/-- JS multiplication on `JSNum`: an infinity times a nonzero finite keeps or
flips sign, an infinity times zero is `NaN`. -/
noncomputable def JSNum.mul : JSNum → JSNum → JSNum
  | .finite a, .finite b => .finite (a * b)
  | .posInf, .finite b =>
      if 0 < b then .posInf else if b < 0 then .negInf else .nan
  | .finite a, .posInf =>
      if 0 < a then .posInf else if a < 0 then .negInf else .nan
  | .negInf, .finite b =>
      if 0 < b then .negInf else if b < 0 then .posInf else .nan
  | .finite a, .negInf =>
      if 0 < a then .negInf else if a < 0 then .posInf else .nan
  | .posInf, .posInf => .posInf
  | .negInf, .negInf => .posInf
  | .posInf, .negInf => .negInf
  | .negInf, .posInf => .negInf
  | _, _ => .nan

/-- JS division on `JSNum`: a nonzero finite divided by zero is a signed
infinity, `0 / 0` is `NaN`. -/
noncomputable def JSNum.div : JSNum → JSNum → JSNum
  | .finite a, .finite b =>
      if b = 0 then (if 0 < a then .posInf else if a < 0 then .negInf else .nan)
      else .finite (a / b)
  | .posInf, .finite b => if 0 ≤ b then .posInf else .negInf
  | .negInf, .finite b => if 0 ≤ b then .negInf else .posInf
  | .finite _, .posInf => .finite 0
  | .finite _, .negInf => .finite 0
  | _, _ => .nan

/-- JS `Math.cos` on `JSNum`: `NaN` on a non-finite argument. -/
noncomputable def JSNum.cos : JSNum → JSNum
  | .finite x => .finite (Real.cos x)
  | _ => .nan

/-- JS `Math.sin` on `JSNum`: `NaN` on a non-finite argument. -/
noncomputable def JSNum.sin : JSNum → JSNum
  | .finite x => .finite (Real.sin x)
  | _ => .nan

/-- JS-number evaluation of the pen computation of `calculatePoint`
(SpirographCanvas.tsx lines 529-532) for a circle guide of radius `R`:
`penAngle = ((R - movingRadius) / movingRadius) * angle` followed by the two
pen coordinates, with every operation performed in JS float semantics instead
of over `ℝ`.  The division by `movingRadius` is exactly as unguarded as in
the source. -/
noncomputable def calculatePointJS (R movingRadius penDistance angle : ℝ) :
    JSNum × JSNum :=
  let baseX := JSNum.finite (R * Real.cos angle)
  let baseY := JSNum.finite (R * Real.sin angle)
  let penAngle :=
    JSNum.mul
      (JSNum.div (JSNum.finite (R - movingRadius)) (JSNum.finite movingRadius))
      (JSNum.finite angle)
  (JSNum.add
     (JSNum.sub baseX
       (JSNum.mul (JSNum.finite movingRadius) (JSNum.cos (JSNum.finite angle))))
     (JSNum.mul (JSNum.finite penDistance) (JSNum.cos penAngle)),
   JSNum.sub
     (JSNum.sub baseY
       (JSNum.mul (JSNum.finite movingRadius) (JSNum.sin (JSNum.finite angle))))
     (JSNum.mul (JSNum.finite penDistance) (JSNum.sin penAngle)))

/- # Arithmetic of the JS remainder and the angle normalization -/

theorem neg_one_lt_sub_rtz (x : ℝ) : -1 < x - (rtz x : ℝ) := by
  rw [rtz]; split_ifs with h
  · have := Int.floor_le x; linarith
  · have := Int.ceil_lt_add_one x; linarith

/-- The two-step JS normalization `((a % b) + b) % b` with a positive modulus
is the canonical representative in `[0, b)`. -/
theorem jsNorm_eq (a b : ℝ) (hb : 0 < b) :
    jsRem (jsRem a b + b) b = b * Int.fract (a / b) := by
  have hb' : b ≠ 0 := ne_of_gt hb
  set u := a / b - (rtz (a / b) : ℝ) with hu
  have hu1 : -1 < u := by
    have := neg_one_lt_sub_rtz (a / b); rw [← hu] at this; exact this
  have h1 : jsRem a b = b * u := by
    rw [jsRem, hu]; field_simp
  have h2 : jsRem a b + b = b * (u + 1) := by rw [h1]; ring
  have h3 : b * (u + 1) / b = u + 1 := by field_simp
  have h4 : (rtz (u + 1) : ℝ) = (⌊u⌋ : ℝ) + 1 := by
    rw [rtz, if_pos (by linarith : (0:ℝ) ≤ u + 1), Int.floor_add_one]
    push_cast; ring
  have h5 : Int.fract (a / b) = Int.fract u := by
    rw [hu, Int.fract_sub_int]
  have h6 : Int.fract u = u - (⌊u⌋ : ℝ) := (Int.self_sub_floor u).symm
  rw [jsRem, h2, h3, h4, h5, h6]
  ring

theorem two_pi_pos : (0:ℝ) < 2 * Real.pi := by positivity

theorem normalizeAngle_eq (θ : ℝ) :
    normalizeAngle θ = 2 * Real.pi * Int.fract (θ / (2 * Real.pi)) := by
  rw [normalizeAngle]; exact jsNorm_eq θ _ two_pi_pos

theorem normalizeAngle_add_two_pi (θ : ℝ) :
    normalizeAngle (θ + 2 * Real.pi) = normalizeAngle θ := by
  rw [normalizeAngle_eq, normalizeAngle_eq]
  have h : (θ + 2 * Real.pi) / (2 * Real.pi) = θ / (2 * Real.pi) + 1 := by
    field_simp
  rw [h, Int.fract_add_one]

theorem jsRem_zero_left (b : ℝ) : jsRem 0 b = 0 := by
  simp [jsRem, rtz]

theorem jsRem_self (b : ℝ) (hb : b ≠ 0) : jsRem b b = 0 := by
  simp [jsRem, rtz, div_self hb]

theorem normalizeAngle_zero : normalizeAngle 0 = 0 := by
  rw [normalizeAngle, jsRem_zero_left, zero_add,
    jsRem_self _ (ne_of_gt two_pi_pos)]

/- # Claim theorems -/

/-- C5: for every shape family and every real angle `θ`, the guide boundary
point sampled by `calculatePoint` at `θ` equals the one at `θ + 2π`: the
boundary-sampling function is total (it is a Lean function on all of `ℝ`)
and periodic with period `2π`. -/
theorem boundaryPoint_periodic (s : FixedShapeConfig) (θ : ℝ) :
    boundaryPoint s (θ + 2 * Real.pi) = boundaryPoint s θ := by
  cases s with
  | circle p => simp [boundaryPoint, Real.cos_add_two_pi, Real.sin_add_two_pi]
  | square p => simp [boundaryPoint, normalizeAngle_add_two_pi]
  | star p => simp [boundaryPoint, normalizeAngle_add_two_pi]
  | hexagon p => simp [boundaryPoint, normalizeAngle_add_two_pi]
  | ellipse p =>
    have h : θ + 2 * Real.pi - p.rotation * Real.pi / 180 =
        θ - p.rotation * Real.pi / 180 + 2 * Real.pi := by ring
    simp [boundaryPoint, ellipseCenter, h, Real.cos_add_two_pi,
      Real.sin_add_two_pi]
  | triangle p => simp [boundaryPoint, Real.cos_add_two_pi, Real.sin_add_two_pi]
  | oval p => simp [boundaryPoint, Real.cos_add_two_pi, Real.sin_add_two_pi]

/-- C1: for a circle guide of radius `R`, moving radius `r ≠ 0` and pen
distance `d`, `calculatePoint` computes exactly the closed-form hypotrochoid
`((R - r)·cos θ + d·cos(((R - r)/r)·θ), (R - r)·sin θ - d·sin(((R - r)/r)·θ))`. -/
theorem calculatePoint_circle_hypotrochoid (R r d sp lw θ : ℝ) (hr : r ≠ 0) :
    calculatePoint ⟨.circle ⟨R⟩, ⟨r⟩, d, sp, lw⟩ θ =
      ((R - r) * Real.cos θ + d * Real.cos ((R - r) / r * θ),
       (R - r) * Real.sin θ - d * Real.sin ((R - r) / r * θ)) := by
  simp only [calculatePoint, boundaryPoint, getFixedShapeRadius]
  rw [Prod.ext_iff]
  constructor <;> ring

/-- Witness for C1 at the spec's representative tuple
`R = 200, r = 50, d = 75, θ = π/2`. -/
theorem calculatePoint_circle_hypotrochoid_witness :
    (50:ℝ) ≠ 0 ∧
    calculatePoint ⟨.circle ⟨200⟩, ⟨50⟩, 75, 1, 2⟩ (Real.pi / 2) =
      ((200 - 50) * Real.cos (Real.pi / 2) +
         75 * Real.cos ((200 - 50) / 50 * (Real.pi / 2)),
       (200 - 50) * Real.sin (Real.pi / 2) -
         75 * Real.sin ((200 - 50) / 50 * (Real.pi / 2))) :=
  ⟨by norm_num,
   calculatePoint_circle_hypotrochoid 200 50 75 1 2 (Real.pi / 2) (by norm_num)⟩

/-- C3 counterexample: for a square of edge length `2` the effective rolling
radius returned by `getFixedShapeRadius` is `√2`, not half the edge length
`2 / 2 = 1`. -/
theorem getFixedShapeRadius_square_ne_half_edge :
    getFixedShapeRadius (.square ⟨2, 0⟩) ≠ 2 / 2 := by
  simp only [getFixedShapeRadius]
  intro h
  have h2 : Real.sqrt 2 = 1 := by linarith
  have h3 := Real.sq_sqrt (by norm_num : (0:ℝ) ≤ 2)
  rw [h2] at h3
  norm_num at h3

/-- C3 amended: for every square guide of nonnegative edge length `E`, the
effective rolling radius equals `√((E/2)² + (E/2)²)`, half the square's
diagonal (the circumradius), rather than half the edge length. -/
theorem getFixedShapeRadius_square_half_diagonal (E c : ℝ) (hE : 0 ≤ E) :
    getFixedShapeRadius (.square ⟨E, c⟩) =
      Real.sqrt ((E / 2) ^ 2 + (E / 2) ^ 2) := by
  simp only [getFixedShapeRadius]
  rw [show (E / 2) ^ 2 + (E / 2) ^ 2 = (E / 2) ^ 2 * 2 by ring,
    Real.sqrt_mul (by positivity), Real.sqrt_sq (by linarith : (0:ℝ) ≤ E / 2)]
  ring

/-- Witness for the amended C3 at edge length `2`. -/
theorem getFixedShapeRadius_square_half_diagonal_witness :
    (0:ℝ) ≤ 2 ∧
    getFixedShapeRadius (.square ⟨2, 0⟩) =
      Real.sqrt (((2:ℝ) / 2) ^ 2 + ((2:ℝ) / 2) ^ 2) :=
  ⟨by norm_num, getFixedShapeRadius_square_half_diagonal 2 0 (by norm_num)⟩

/-- C7: a shape tag not handled by the geometry switches (the `triangle` and
`oval` tags declared in the `src/src/types.ts` variant) silently falls back
to a circle of the fixed default radius `0`: its effective radius and its
boundary point agree with those of a radius-`0` circle guide at every angle,
producing a valid point rather than an error. -/
theorem unsupported_shape_falls_back_to_circle (tp : TriangleParams)
    (op : OvalParams) (θ : ℝ) :
    getFixedShapeRadius (.triangle tp) = getFixedShapeRadius (.circle ⟨0⟩) ∧
    getFixedShapeRadius (.oval op) = getFixedShapeRadius (.circle ⟨0⟩) ∧
    boundaryPoint (.triangle tp) θ = boundaryPoint (.circle ⟨0⟩) θ ∧
    boundaryPoint (.oval op) θ = boundaryPoint (.circle ⟨0⟩) θ := by
  refine ⟨rfl, rfl, ?_, ?_⟩ <;>
    simp [boundaryPoint, getFixedShapeRadius]

/-- C9: `clearCanvas` sets `lastPoint` to `null` (pen up) and leaves
`cumulativeAngle` exactly as it was, for every trace state. -/
theorem clearCanvas_pen_up_angle_unchanged (s : TraceState) :
    (clearCanvas s).lastPoint = none ∧
    (clearCanvas s).cumulativeAngle = s.cumulativeAngle :=
  ⟨rfl, rfl⟩

/-- C2 failing input: on a first animation frame arriving `10000` ms after
page load with `animationSpeed = 1`, the angle increment `animate` adds is
`animationSpeed * (timestamp * 0.0005) * 0.1 = 1/2`, not `0`: the code
multiplies by the absolute `requestAnimationFrame` timestamp, not by the
elapsed time since the previous frame (which the claim takes to be zero on
the first frame). -/
theorem animate_first_frame_increment_nonzero :
    animateAngleIncrement 1 10000 = 1 / 2 ∧
    animateAngleIncrement 1 10000 ≠ 0 := by
  constructor <;> norm_num [animateAngleIncrement]

/-- One wheel event always lands the scale in `[0.1, 10]`, whatever the
previous scale was: the update is clamped by `max 0.1 (min 10 ·)`. -/
theorem handleWheelScale_mem (d s : ℚ) :
    1 / 10 ≤ handleWheelScale d s ∧ handleWheelScale d s ≤ 10 := by
  unfold handleWheelScale
  refine ⟨le_max_left _ _, max_le (by norm_num) (min_le_left _ _)⟩

/-- C8: starting from any scale in `[0.1, 10]`, every finite sequence of
wheel-zoom events (multiplying by `0.9` or `1.1` and clamping) leaves the
view-transform scale in `[0.1, 10]`; since the statement covers every finite
sequence, it covers every prefix, i.e. the scale is in range after every
event. -/
theorem wheel_zoom_scale_clamped (deltas : List ℚ) (scale0 : ℚ)
    (h : 1 / 10 ≤ scale0 ∧ scale0 ≤ 10) :
    1 / 10 ≤ applyWheelEvents deltas scale0 ∧
    applyWheelEvents deltas scale0 ≤ 10 := by
  induction deltas generalizing scale0 with
  | nil => exact h
  | cons d rest ih =>
    have hstep := handleWheelScale_mem d scale0
    simpa [applyWheelEvents] using ih (handleWheelScale d scale0) hstep

/-- Witness for C8: three wheel events starting from scale `1`. -/
theorem wheel_zoom_scale_clamped_witness :
    ((1:ℚ) / 10 ≤ 1 ∧ (1:ℚ) ≤ 10) ∧
    (1 / 10 ≤ applyWheelEvents [1, 1, -1] 1 ∧
     applyWheelEvents [1, 1, -1] 1 ≤ 10) :=
  ⟨by norm_num, wheel_zoom_scale_clamped [1, 1, -1] 1 (by norm_num)⟩

/-- C4 failing input: for the configuration circle radius `150`,
`movingRadius = 0`, `penDistance = 75` at angle `π/2`, the unguarded division
in the pen computation gives `penAngle = ((150 - 0) / 0) * (π/2) = +∞`, and
the emitted pen point is `(NaN, NaN)` under JS float semantics — the frame's
segments are emitted toward a `NaN` point (invisible on the render surface)
rather than skipped by any guard. -/
theorem calculatePointJS_zero_moving_radius_nan :
    calculatePointJS 150 0 75 (Real.pi / 2) = (JSNum.nan, JSNum.nan) := by
  have hpi : (0:ℝ) < Real.pi / 2 := by positivity
  norm_num [calculatePointJS, JSNum.div, JSNum.mul, JSNum.add, JSNum.sub,
    JSNum.cos, JSNum.sin, hpi]

/-- A search with a predicate false on every element finds no index. -/
theorem findIdx?_eq_none_of {α : Type} (p : α → Bool) :
    ∀ l : List α, (∀ x ∈ l, p x = false) → l.findIdx? p = none := by
  intro l
  induction l with
  | nil => intro _; simp
  | cons a t ih =>
    intro h
    have ha := h a (List.mem_cons_self a t)
    have ht := ih (fun x hx => h x (List.mem_cons_of_mem a hx))
    simp [List.findIdx?_cons, ha, ht]

/-- C6 amended: for a gradient with at least two stops and a progress value
contained in no adjacent stop-position interval (in particular one lying
before the first stop or after the last), `getColorFromGradient` falls back
to the FIRST stop pair — `startIndex` keeps its initial value `0` — in every
such case, including progress after the last stop; it extrapolates that first
pair rather than raising an error. -/
theorem getColorFromGradient_fallback_first_pair (g : GradientColor)
    (progress : ℚ) (hlen : 2 ≤ g.colors.length)
    (h : ∀ pr ∈ g.colors.zip g.colors.tail,
      ¬(pr.1.position ≤ progress ∧ progress ≤ pr.2.position)) :
    getColorFromGradient (.gradient g) progress =
      interpolateStopPair (g.colors.getD 0 defaultStop)
        (g.colors.getD 1 defaultStop) progress := by
  have hfind : findStartIndex g.colors progress = 0 := by
    rw [findStartIndex]
    have hnone : (g.colors.zip g.colors.tail).findIdx?
        (fun pr => decide (pr.1.position ≤ progress) &&
                   decide (progress ≤ pr.2.position)) = none := by
      apply findIdx?_eq_none_of
      intro x hx
      have hx' := h x hx
      have hcases : decide (x.1.position ≤ progress) = false ∨
          decide (progress ≤ x.2.position) = false := by
        by_cases h1 : x.1.position ≤ progress
        · exact Or.inr (decide_eq_false fun h2 => hx' ⟨h1, h2⟩)
        · exact Or.inl (decide_eq_false h1)
      rcases hcases with h' | h' <;> simp [h']
    rw [hnone]; rfl
  have h1 : g.colors.length ≠ 1 := by omega
  simp [getColorFromGradient, h1, hfind]

/-- C6 counterexample: on the three-stop gradient with positions `0`, `1/2`,
`1` and progress `3/2` (after the last stop), the resolver returns
`"#400000"`, the extrapolation of the FIRST stop pair
(`"#100000"`, `"#200000"` at `t = 3`); the last-pair interpolation the claim
requires (`"#200000"`, `"#800000"` at `t = 2`) would be `"#e00000"`, so the
resolver does not fall back to the nearest boundary pair. -/
theorem getColorFromGradient_after_last_uses_first_pair :
    getColorFromGradient (.gradient c6Gradient) (3/2) = "#400000" ∧
    getColorFromGradient (.gradient c6Gradient) (3/2) ≠ "#e00000" := by
  have e1 : parseHex2 "#100000" 1 = 16 := by decide
  have e2 : parseHex2 "#100000" 3 = 0 := by decide
  have e3 : parseHex2 "#100000" 5 = 0 := by decide
  have e4 : parseHex2 "#200000" 1 = 32 := by decide
  have e5 : parseHex2 "#200000" 3 = 0 := by decide
  have e6 : parseHex2 "#200000" 5 = 0 := by decide
  have hinterp : interpolateStopPair ⟨"#100000", 0⟩ ⟨"#200000", 1/2⟩ (3/2) =
      "#400000" := by
    simp only [interpolateStopPair, e1, e2, e3, e4, e5, e6]
    push_cast
    norm_num [jsRound]
    decide
  have hfind : findStartIndex
      [⟨"#100000", 0⟩, ⟨"#200000", 1/2⟩, ⟨"#800000", (1:ℚ)⟩] (3/2) = 0 := by
    norm_num [findStartIndex, List.findIdx?_cons]
  have hmain : getColorFromGradient (.gradient c6Gradient) (3/2) = "#400000" := by
    rw [getColorFromGradient]
    norm_num [c6Gradient, hfind]
    exact hinterp
  exact ⟨hmain, by rw [hmain]; decide⟩

/-- Witness for the amended C6 at the concrete gradient and progress `3/2`. -/
theorem getColorFromGradient_fallback_first_pair_witness :
    (2 ≤ c6Gradient.colors.length ∧
      (∀ pr ∈ c6Gradient.colors.zip c6Gradient.colors.tail,
        ¬(pr.1.position ≤ (3/2 : ℚ) ∧ (3/2 : ℚ) ≤ pr.2.position))) ∧
    getColorFromGradient (.gradient c6Gradient) (3/2) =
      interpolateStopPair (c6Gradient.colors.getD 0 defaultStop)
        (c6Gradient.colors.getD 1 defaultStop) (3/2) := by
  have hlen : 2 ≤ c6Gradient.colors.length := by norm_num [c6Gradient]
  have h : ∀ pr ∈ c6Gradient.colors.zip c6Gradient.colors.tail,
      ¬(pr.1.position ≤ (3/2 : ℚ) ∧ (3/2 : ℚ) ≤ pr.2.position) := by
    intro pr hpr
    simp only [c6Gradient, List.tail, List.zip, List.zipWith,
      List.mem_cons, List.not_mem_nil, or_false] at hpr
    rcases hpr with rfl | rfl <;> norm_num
  exact ⟨⟨hlen, h⟩, getColorFromGradient_fallback_first_pair c6Gradient (3/2) hlen h⟩

/-- C10: the overlay's moving-circle indicator computes the center with the
circle formula `(R - r)·(cos θ, sin θ)` for every guide shape; consequently
for a circle guide with `r ≠ 0` its pen point equals the traced point of
`calculatePoint` at every angle, while for a non-circular guide (a sharp
square of edge `2` at angle `0`) the two differ. -/
theorem drawMovingCircle_overlay_vs_trace :
    (∀ (p : SpirographParams) (θ : ℝ),
      drawMovingCircleCenter p θ =
        ((getFixedShapeRadius p.fixedShape - p.movingShape.radius) * Real.cos θ,
         (getFixedShapeRadius p.fixedShape - p.movingShape.radius) *
           Real.sin θ)) ∧
    (∀ (c : CircleParams) (p : SpirographParams) (θ : ℝ),
      p.fixedShape = .circle c → p.movingShape.radius ≠ 0 →
      drawMovingCirclePen p θ = calculatePoint p θ) ∧
    (∃ (p : SpirographParams) (θ : ℝ),
      (∀ c : CircleParams, p.fixedShape ≠ .circle c) ∧
      drawMovingCirclePen p θ ≠ calculatePoint p θ) := by
  refine ⟨fun p θ => rfl, ?_, ?_⟩
  · intro c p θ hfix hr
    obtain ⟨fs, ms, d, sp, lw⟩ := p
    simp only at hfix
    subst hfix
    simp only [drawMovingCirclePen, drawMovingCircleCenter, calculatePoint,
      boundaryPoint, getFixedShapeRadius]
    rw [Prod.ext_iff]
    constructor <;> ring
  · refine ⟨⟨.square ⟨2, 0⟩, ⟨1⟩, 0, 1, 1⟩, 0, fun c => by simp, ?_⟩
    have hbase : boundaryPoint (.square ⟨2, 0⟩) 0 = (1, -1) := by
      rw [boundaryPoint, normalizeAngle_zero]
      rw [squareCenterAux]
      norm_num [jsRem_zero_left]
    have hcp : (calculatePoint ⟨.square ⟨2, 0⟩, ⟨1⟩, 0, 1, 1⟩ 0).2 = -1 := by
      simp [calculatePoint, hbase]
    have hov : (drawMovingCirclePen ⟨.square ⟨2, 0⟩, ⟨1⟩, 0, 1, 1⟩ 0).2 = 0 := by
      simp [drawMovingCirclePen, drawMovingCircleCenter]
    intro heq
    rw [Prod.ext_iff] at heq
    rw [hov, hcp] at heq
    norm_num at heq

/-- Witness for C10's circle-guide equality at
`R = 200, r = 50, d = 75, θ = π/2`. -/
theorem drawMovingCircle_overlay_vs_trace_witness :
    drawMovingCirclePen ⟨.circle ⟨200⟩, ⟨50⟩, 75, 1, 2⟩ (Real.pi / 2) =
      calculatePoint ⟨.circle ⟨200⟩, ⟨50⟩, 75, 1, 2⟩ (Real.pi / 2) :=
  drawMovingCircle_overlay_vs_trace.2.1 ⟨200⟩ _ (Real.pi / 2) rfl (by norm_num)

end Spirograph
